import Mathlib

/-!
Verification of the typed-IR / type-system core of the numba repository
(src/numba/_numba_types.py and src/numba/nodes.py) against its
natural-language specification.

The Python code is shallowly embedded: minivect/numba types become an
inductive `MiniType`, the runtime-dtype mapper `_map_dtype` and the
ctypes mapper `convert_to_ctypes` become total Lean functions returning
`Except` (an `error` models a raised Python exception), and the
stride-based subscript offset computation of `DataPointerNode.subscript`
becomes pure integer arithmetic over the index/stride lists.
-/

namespace Numba

/--
Type descriptors, embedding the subset of `minitypes` / `_numba_types`
type kinds that the functions under study branch on.  Scalar numeric
kinds carry their byte size (`itemsize` in the source); arrays carry
their element dtype and rank (`ndim`).  The `is_function` kind of
`convert_to_ctypes` is outside the embedded domain (no claim touches
it, and its branch contains an unrelated misspelling `covert_to_ctypes`).
-/
inductive MiniType where
  | int_ (is_signed : Bool) (size : Nat)
  | float_ (size : Nat)
  | complexT (base_type : MiniType)
  | pointerT (base_type : MiniType)
  | carrayT (base_type : MiniType) (length : Nat)
  | objectT
  | arrayT (dtype : MiniType) (ndim : Nat)
  | cStringT
  | pySSizeT
  | voidT
deriving DecidableEq, Repr

/--
Byte size of a type.  For scalars this is the stored item size.
Modelled from the spec: for a complex type the byte size is twice the
base scalar's byte size ("byte size = 2 × base size"); the defining
`minitypes` code is not part of the two source files.  Sizes of the
non-numeric kinds are never consulted by the embedded functions; they
are set to the 64-bit platform values for concreteness.
-/
def MiniType.itemsize : MiniType → Nat
  | .int_ _ s => s
  | .float_ s => s
  | .complexT b => 2 * b.itemsize
  | .pointerT _ => 8
  | .carrayT b n => n * b.itemsize
  | .objectT => 8
  | .arrayT _ _ => 8
  | .cStringT => 8
  | .pySSizeT => 8
  | .voidT => 0

/-! Named scalar shorthands from `_numba_types.py` (lines 141-158). -/

def i1 : MiniType := .int_ true 1
def i2 : MiniType := .int_ true 2
def i4 : MiniType := .int_ true 4
def i8 : MiniType := .int_ true 8
def u1 : MiniType := .int_ false 1
def u2 : MiniType := .int_ false 2
def u4 : MiniType := .int_ false 4
def u8 : MiniType := .int_ false 8
def f4 : MiniType := .float_ 4
def f8 : MiniType := .float_ 8
def f16 : MiniType := .float_ 16
def c8 : MiniType := .complexT f4
def c16 : MiniType := .complexT f8
def c32 : MiniType := .complexT f16
def O : MiniType := .objectT

/-- The native C `int` type, `minitypes.int_` (4 bytes on the platforms
the source targets). -/
def int_C : MiniType := .int_ true 4

/-- The numpy `intp` size-word type (`IntPType`); platform pointer
width, 8 bytes on a 64-bit platform. -/
def intp : MiniType := .int_ true 8

/--
Runtime dtype descriptor: numpy kind letter and item byte size, the two
fields `_map_dtype` reads from a `np.dtype`.
-/
inductive DtypeKind where
  | kI | kU | kF | kB | kC | kO
deriving DecidableEq, Repr

structure Dtype where
  kind : DtypeKind
  itemsize : Nat
deriving DecidableEq, Repr

/--
Python exceptions raised (directly or by builtins) inside the two
mapper functions: the explicit `raise NotImplementedError`, an
out-of-range list index (`IndexError`), and `math.log(0)`
(`ValueError: math domain error`).
-/
inductive MapError where
  | notImplementedError
  | indexError
  | mathDomainError
deriving DecidableEq, Repr

/--
Embedding of `_map_dtype` (_numba_types.py lines 186-225).
`item_idx = int(math.log(dtype.itemsize, 2))` is modelled as
`Nat.log2`, the floor of the base-2 logarithm, which agrees with the
truncated float computation on the small item sizes involved; it is
computed up front for every kind, so item size 0 raises for every kind.
Kind `f` with item size 2 executes `pass` and falls through to the
final `raise NotImplementedError`.
-/
def _map_dtype (dtype : Dtype) : Except MapError MiniType :=
  if dtype.itemsize = 0 then .error .mathDomainError else
  let item_idx := Nat.log2 dtype.itemsize
  match dtype.kind with
  | .kI =>
    match [i1, i2, i4, i8].get? item_idx with
    | some t => .ok t
    | none => .error .indexError
  | .kU =>
    match [u1, u2, u4, u8].get? item_idx with
    | some t => .ok t
    | none => .error .indexError
  | .kF =>
    if dtype.itemsize = 4 then .ok f4
    else if dtype.itemsize = 8 then .ok f8
    else if dtype.itemsize = 16 then .ok f16
    else .error .notImplementedError
  | .kB => .ok i1
  | .kC =>
    if dtype.itemsize = 8 then .ok c8
    else if dtype.itemsize = 16 then .ok c16
    else if dtype.itemsize = 32 then .ok c32
    else .error .notImplementedError
  | .kO => .ok O

/--
ctypes-level representations produced by `convert_to_ctypes`
(_numba_types.py lines 227-276).  `Complex64l`, `Complex128l` and
`Complex256l` stand for the three `ctypes.Structure` classes defined at
lines 317-328; `cArrayOf t n` stands for the Python expression
`convert_to_ctypes(type.base_type) * type.size`; `noneRep` stands for
the Python `None` returned for the void type.
-/
inductive CtypesType where
  | c_int8 | c_int16 | c_int32 | c_int64
  | c_uint8 | c_uint16 | c_uint32 | c_uint64
  | c_float | c_double | c_longdouble
  | py_object
  | pointerTo (t : CtypesType)
  | Complex64l | Complex128l | Complex256l
  | c_char_p
  | cArrayOf (t : CtypesType) (n : Nat)
  | noneRep
deriving DecidableEq, Repr

/--
The `_fields_` lists of the three complex `ctypes.Structure` classes
(_numba_types.py lines 317-328): each has exactly a `real` and an
`imag` field of the corresponding scalar float ctype.  Other ctypes
have no `_fields_` list.
-/
def ctypesFields : CtypesType → Option (List (String × CtypesType))
  | .Complex64l => some [("real", .c_float), ("imag", .c_float)]
  | .Complex128l => some [("real", .c_double), ("imag", .c_double)]
  | .Complex256l => some [("real", .c_longdouble), ("imag", .c_longdouble)]
  | _ => none

/--
Floor of the natural logarithm on naturals, modelling Python's
`int(math.log(n))` (note: natural log, base e, NOT base 2 - this is
what line 248 of _numba_types.py actually computes).  The thresholds
are the integer ranges between consecutive powers of e:
e^1 = 2.718.., e^2 = 7.389.., e^3 = 20.08.., e^4 = 54.59..,
e^5 = 148.4.., so the definition is exact for n up to 148, far beyond
any byte size the source can meet.
-/
def floorLn (n : Nat) : Nat :=
  if n < 3 then 0
  else if n < 8 then 1
  else if n < 21 then 2
  else if n < 55 then 3
  else 4

/--
Embedding of `convert_to_ctypes` (_numba_types.py lines 227-276).
The dispatch follows the source's if/elif chain on the type-kind
flags.  Notably the integer branch (lines 247-255) computes
`item_idx = int(math.log(type.itemsize))` with the NATURAL logarithm
(unlike `_map_dtype`, which uses `math.log(itemsize, 2)`), modelled by
`floorLn`; item size 0 raises `math domain error` and an index past
the end of the 4-element table raises `IndexError`.  The complex
branch (lines 256-262) selects a structure by total item size with a
bare `else` for every size other than 8 and 16.
-/
def convert_to_ctypes : MiniType → Except MapError CtypesType
  | .pointerT b => (convert_to_ctypes b).map .pointerTo
  | .objectT => .ok .py_object
  | .arrayT _ _ => .ok .py_object
  | .float_ s =>
    if s = 4 then .ok .c_float
    else if s = 8 then .ok .c_double
    else .ok .c_longdouble
  | .int_ is_signed s =>
    if s = 0 then .error .mathDomainError
    else
      let item_idx := floorLn s
      let values : List CtypesType :=
        if is_signed then [.c_int8, .c_int16, .c_int32, .c_int64]
        else [.c_uint8, .c_uint16, .c_uint32, .c_uint64]
      match values.get? item_idx with
      | some v => .ok v
      | none => .error .indexError
  | .complexT b =>
    if (MiniType.complexT b).itemsize = 8 then .ok .Complex64l
    else if (MiniType.complexT b).itemsize = 16 then .ok .Complex128l
    else .ok .Complex256l
  | .cStringT => .ok .c_char_p
  | .pySSizeT => .ok .c_uint64
  | .voidT => .ok .noneRep
  | .carrayT b n => (convert_to_ctypes b).map (fun t => .cArrayOf t n)

/-!
Typed IR nodes (nodes.py).  `Variable` embeds the fields of
`symtab.Variable` that the node constructors in nodes.py set; the
field `var` of a node stands for the Python attribute `variable`
(a Lean keyword).
-/

structure Variable where
  type : MiniType
  name : Option String
  is_local : Bool
  is_constant : Bool
deriving DecidableEq, Repr

/--
Embedding of `CoercionNode` (nodes.py lines 29-41): wraps a child node
with a destination type; its `variable` and `type` are both the
destination type.  The child-node type is a parameter because call
arguments are arbitrary AST nodes.
-/
structure CoercionNode (α : Type) where
  node : α
  dst_type : MiniType
  var : Variable
  type : MiniType
deriving DecidableEq, Repr

def mkCoercionNode {α : Type} (node : α) (dst_type : MiniType) : CoercionNode α :=
  ⟨node, dst_type, ⟨dst_type, none, false, false⟩, dst_type⟩

/-- A call signature: ordered parameter types plus return type (the
two attributes of `signature` that `FunctionCallNode.__init__` reads). -/
structure Signature where
  args : List MiniType
  return_type : MiniType
deriving DecidableEq, Repr

/--
Embedding of `FunctionCallNode.__init__` (nodes.py lines 92-97):
`self.args = [CoercionNode(arg, arg_dst_type) for arg_dst_type, arg in
zip(signature.args, args)]` and `self.variable =
Variable(signature.return_type)`.  Python's `zip` stops at the shorter
of the two lists and the constructor performs no arity check, so the
construction is total.
-/
structure FunctionCallNode (α : Type) where
  signature : Signature
  args : List (CoercionNode α)
  var : Variable
deriving DecidableEq, Repr

def mkFunctionCallNode {α : Type} (signature : Signature) (args : List α) :
    FunctionCallNode α :=
  ⟨signature,
   (signature.args.zip args).map (fun p => mkCoercionNode p.2 p.1),
   ⟨signature.return_type, none, false, false⟩⟩

/--
Decimal rendering of a natural number, most significant digit first,
modelling the `'%d'` format used in the generated temporary name
`'___numba_%d' % self.temp_counter` (nodes.py line 142).
-/
def decimalString (n : Nat) : String :=
  if n = 0 then "0"
  else ((Nat.digits 10 n).reverse.map Nat.digitChar).asString

/--
Embedding of `TempNode.__init__` (nodes.py lines 133-145): reads the
class-level `temp_counter`, embeds it in the variable name, and
increments it.  The counter is passed and returned explicitly, which
models the single piece of mutable state.
-/
structure TempNode where
  type : MiniType
  var : Variable
deriving DecidableEq, Repr

def mkTempNode (type : MiniType) (temp_counter : Nat) : TempNode × Nat :=
  (⟨type, ⟨type, some ("___numba_" ++ decimalString temp_counter), true, false⟩⟩,
   temp_counter + 1)

/-- Constructing `n` temporaries in sequence, threading the counter. -/
def mkTempNodes (type : MiniType) : Nat → Nat → List TempNode × Nat
  | 0, c => ([], c)
  | n + 1, c =>
    let p := mkTempNode type c
    let rest := mkTempNodes type n p.2
    (p.1 :: rest.1, rest.2)

/--
Failure mode of `ArrayAttributeNode.__init__` (nodes.py line 234): the
fallback branch is `raise NotImplementedError(node.attr)`, but no name
`node` is bound in that scope (the parameter is `attribute_name`), so
Python raises `NameError` while evaluating the argument of the intended
`NotImplementedError`.
-/
inductive ArrayAttrError where
  | nameErrorNodeNotDefined
deriving DecidableEq, Repr

/--
Embedding of `ArrayAttributeNode.__init__` (nodes.py lines 217-237).
The inputs are the attribute name and the fields `dtype` and `ndim` of
the child node's array type, which are all the constructor reads.
`ndim` resolves to the native C int (`minitypes.int_`), `shape` and
`strides` to `CArrayType(intp, ndim)`, `data` to a pointer to the
element dtype, and any other name reaches the broken raise (see
`ArrayAttrError.nameErrorNodeNotDefined`).
-/
structure ArrayAttributeNode where
  attr_name : String
  type : MiniType
  var : Variable
deriving DecidableEq, Repr

def mkArrayAttributeNode (attribute_name : String) (dtype : MiniType)
    (ndim : Nat) : Except ArrayAttrError ArrayAttributeNode :=
  if attribute_name = "ndim" then
    .ok ⟨attribute_name, int_C, ⟨int_C, none, false, false⟩⟩
  else if attribute_name = "shape" ∨ attribute_name = "strides" then
    let t := MiniType.carrayT intp ndim
    .ok ⟨attribute_name, t, ⟨t, none, false, false⟩⟩
  else if attribute_name = "data" then
    let t := MiniType.pointerT dtype
    .ok ⟨attribute_name, t, ⟨t, none, false, false⟩⟩
  else
    .error .nameErrorNodeNotDefined

/--
Embedding of the offset computation of `DataPointerNode.subscript`
(nodes.py lines 195-206): starting from offset 0, the loop
`for i, index in zip(range(ndim), reversed(indices))` reads
`strides[i]` and accumulates `offset = offset + index * stride`.
Python's `zip` truncates to the shorter sequence, so fewer indices
than `ndim` leaves the remaining dimensions at zero contribution and
extra indices beyond `ndim` are dropped (from the front, since the
index sequence is reversed first).  The casts through `caster.cast`
only widen to the stride's integer width and are modelled by computing
in unbounded `Int`.
-/
def subscriptOffset (strides : List Int) (ndim : Nat) (indices : List Int) : Int :=
  ((List.range ndim).zip indices.reverse).foldl
    (fun offset p => offset + p.2 * strides.getD p.1 0) 0

/-- Final element address `dptr + offset` computed by
`DataPointerNode.subscript` (`builder.gep(dptr, [offset])`, byte-wise
on the char data pointer). -/
def subscriptAddress (dptr : Int) (strides : List Int) (ndim : Nat)
    (indices : List Int) : Int :=
  dptr + subscriptOffset strides ndim indices

/-! ## Theorems for the claims -/

/--
C1: for a rank-2 array with per-dimension byte strides `[8, 4]` and
data pointer `P`, the subscript operation at indices `(3, 5)` computes
the address `P + 5*8 + 3*4 = P + 52`; in general on a rank-2 array the
dimensions `0, 1` in forward order are paired with the supplied
indices in reverse order, so the last supplied index multiplies
`stride[0]`.
-/
theorem subscript_rank2_pairing (P a b s0 s1 : Int) :
    subscriptAddress P [8, 4] 2 [3, 5] = P + 52
  ∧ subscriptAddress P [s0, s1] 2 [a, b] = P + (b * s0 + a * s1) := by
  refine ⟨?_, ?_⟩ <;>
    simp [subscriptAddress, subscriptOffset, List.range_succ]

/--
C2 counterexample: on a rank-3 array with strides `[100, 10, 1]` and
data pointer `0`, a single supplied index `1` yields address `100`,
i.e. `1 * stride[0]`, not `1 * stride[2] = 1` as the claim states.
-/
theorem subscript_single_index_counterexample :
    subscriptAddress 0 [100, 10, 1] 3 [1] = 1 * 100
  ∧ subscriptAddress 0 [100, 10, 1] 3 [1] ≠ 1 * 1 := by
  refine ⟨by decide, by decide⟩

/--
C2 amended: for a rank-3 array the subscript operation with exactly
one supplied index yields `P + index * stride[0]` (the single index,
being the last supplied, is paired with dimension 0); supplying fewer
indices than the rank is permitted and the unindexed dimensions
contribute zero offset (two indices use only `stride[0]` and
`stride[1]`).
-/
theorem subscript_partial_indexing (P idx i0 i1 s0 s1 s2 : Int) :
    subscriptAddress P [s0, s1, s2] 3 [idx] = P + idx * s0
  ∧ subscriptAddress P [s0, s1, s2] 3 [i0, i1] = P + (i1 * s0 + i0 * s1) := by
  refine ⟨?_, ?_⟩ <;>
    simp [subscriptAddress, subscriptOffset, List.range_succ]

/--
C10: supplying more indices than the array's rank raises no error:
the embedded subscript computation is total and, on a rank-2 array
given three indices, uses only the last two supplied indices (the
first is ignored), with the final supplied index paired with
dimension 0.
-/
theorem subscript_excess_indices (P a b c s0 s1 : Int) :
    subscriptAddress P [s0, s1] 2 [a, b, c] = P + (c * s0 + b * s1) := by
  simp [subscriptAddress, subscriptOffset, List.range_succ]

/--
C6: the supported table of the runtime-descriptor mapper `_map_dtype`:
signed integer sizes 1, 2, 4, 8 map to int8/int16/int32/int64 via
log2 indexing, unsigned sizes to uint8/uint16/uint32/uint64, the
boolean kind maps to the 1-byte signed integer type, the complex kind
maps byte size 8 to complex64, 16 to complex128 and 32 to complex256,
and the generic-object kind maps to the dynamic object type.
-/
theorem map_dtype_supported_table :
    _map_dtype ⟨.kI, 1⟩ = .ok i1 ∧ _map_dtype ⟨.kI, 2⟩ = .ok i2
  ∧ _map_dtype ⟨.kI, 4⟩ = .ok i4 ∧ _map_dtype ⟨.kI, 8⟩ = .ok i8
  ∧ _map_dtype ⟨.kU, 1⟩ = .ok u1 ∧ _map_dtype ⟨.kU, 2⟩ = .ok u2
  ∧ _map_dtype ⟨.kU, 4⟩ = .ok u4 ∧ _map_dtype ⟨.kU, 8⟩ = .ok u8
  ∧ _map_dtype ⟨.kB, 1⟩ = .ok i1
  ∧ _map_dtype ⟨.kC, 8⟩ = .ok c8 ∧ _map_dtype ⟨.kC, 16⟩ = .ok c16
  ∧ _map_dtype ⟨.kC, 32⟩ = .ok c32
  ∧ _map_dtype ⟨.kO, 8⟩ = .ok O := by
  refine ⟨?_, ?_, ?_, ?_, ?_, ?_, ?_, ?_, ?_, ?_, ?_, ?_, ?_⟩ <;>
    simp [_map_dtype, Nat.log2]

/--
C4 counterexample: the 3-byte signed-integer descriptor is outside the
enumerated supported table, yet `_map_dtype` does not fail: the index
`int(math.log(3, 2)) = 1` silently selects int16.
-/
theorem map_dtype_unmatched_counterexample :
    _map_dtype ⟨.kI, 3⟩ = .ok i2 := by
  simp [_map_dtype, Nat.log2]

/--
C4 amended: the half-float descriptor (kind `f`, 2 bytes) fails with
the unsupported-element error (the final `NotImplementedError`), as do
all float and complex descriptors whose byte size matches no branch;
but integer and unsigned kinds index their width table at the floor of
`log2(byteSize)`, so non-power-of-two integer sizes below 16 silently
map to the next-lower width instead of failing (e.g. `(i, 3)` yields
int16), integer sizes 16 and above fail with an `IndexError` rather
than the unsupported-element error, and byte size 0 fails with a math
domain error for every kind.
-/
theorem map_dtype_unsupported_amended :
    _map_dtype ⟨.kF, 2⟩ = .error .notImplementedError
  ∧ (∀ s : Nat, s ≠ 0 → s ≠ 4 → s ≠ 8 → s ≠ 16 →
      _map_dtype ⟨.kF, s⟩ = .error .notImplementedError)
  ∧ (∀ s : Nat, s ≠ 0 → s ≠ 8 → s ≠ 16 → s ≠ 32 →
      _map_dtype ⟨.kC, s⟩ = .error .notImplementedError)
  ∧ _map_dtype ⟨.kI, 3⟩ = .ok i2
  ∧ (∀ s : Nat, 16 ≤ s → _map_dtype ⟨.kI, s⟩ = .error .indexError)
  ∧ (∀ k : DtypeKind, _map_dtype ⟨k, 0⟩ = .error .mathDomainError) := by
  refine ⟨by simp [_map_dtype], ?_, ?_, by simp [_map_dtype, Nat.log2], ?_, ?_⟩
  · intro s h0 h4 h8 h16
    simp [_map_dtype, h0, h4, h8, h16]
  · intro s h0 h8 h16 h32
    simp [_map_dtype, h0, h8, h16, h32]
  · intro s hs
    have hlog : 4 ≤ Nat.log2 s := (Nat.le_log2 (by omega)).mpr (by simpa using hs)
    have hnone : [i1, i2, i4, i8][Nat.log2 s]? = none := by
      apply List.getElem?_eq_none
      simpa using hlog
    simp [_map_dtype, hnone, show s ≠ 0 by omega]
  · intro k
    cases k <;> simp [_map_dtype]

/--
C4 witness: instantiating the amended theorem at the concrete
unsupported float descriptor of byte size 32.
-/
theorem map_dtype_unsupported_amended_witness :
    _map_dtype ⟨.kF, 32⟩ = .error .notImplementedError :=
  map_dtype_unsupported_amended.2.1 32 (by decide) (by decide) (by decide)
    (by decide)

/--
C5: evaluation of the embedded `convert_to_ctypes` at integer types of
byte sizes 1, 2, 4, 8.  Because line 248 of _numba_types.py computes
`int(math.log(type.itemsize))` with the NATURAL logarithm instead of
the base-2 logarithm the claim (and the parallel `_map_dtype`) use,
a 2-byte signed integer maps to c_int8 instead of c_int16, a 4-byte
one to c_int16 instead of c_int32, and an 8-byte one to c_int32
instead of c_int64.
-/
theorem convert_to_ctypes_int_eval :
    convert_to_ctypes (.int_ true 1) = .ok .c_int8
  ∧ convert_to_ctypes (.int_ true 2) = .ok .c_int8
  ∧ convert_to_ctypes (.int_ true 4) = .ok .c_int16
  ∧ convert_to_ctypes (.int_ true 8) = .ok .c_int32
  ∧ convert_to_ctypes (.int_ false 2) = .ok .c_uint8
  ∧ convert_to_ctypes (.int_ false 4) = .ok .c_uint16
  ∧ convert_to_ctypes (.int_ false 8) = .ok .c_uint32 :=
  ⟨rfl, rfl, rfl, rfl, rfl, rfl, rfl⟩

/--
C7: a complex type over a float base scalar of byte size `n` has total
byte size `2 * n`, and its ctypes (foreign) representation is a record
of exactly the two fields `real` and `imag`, each of the base
scalar's own ctypes representation: two c_float fields for base size
4, two c_double fields for base size 8, and two c_longdouble fields
for every other base size.
-/
theorem complex_size_and_foreign_fields (n : Nat) :
    (MiniType.complexT (.float_ n)).itemsize = 2 * (MiniType.float_ n).itemsize
  ∧ ∃ C B, convert_to_ctypes (.complexT (.float_ n)) = .ok C
      ∧ convert_to_ctypes (.float_ n) = .ok B
      ∧ ctypesFields C = some [("real", B), ("imag", B)] := by
  refine ⟨rfl, ?_⟩
  rcases eq_or_ne n 4 with h4 | h4
  · subst h4
    exact ⟨.Complex64l, .c_float, rfl, rfl, rfl⟩
  rcases eq_or_ne n 8 with h8 | h8
  · subst h8
    exact ⟨.Complex128l, .c_double, rfl, rfl, rfl⟩
  refine ⟨.Complex256l, .c_longdouble, ?_, ?_, rfl⟩
  · simp [convert_to_ctypes, MiniType.itemsize, show 2 * n ≠ 8 by omega,
      show 2 * n ≠ 16 by omega]
  · simp [convert_to_ctypes, h4, h8]

/--
C8: evaluation of the embedded `ArrayAttributeNode` constructor on an
array of float64 elements and rank 2.  The attribute `ndim` resolves
to the native C int type, `shape` and `strides` to a fixed-length
C-array of the size-word type with static length equal to the rank,
and `data` to a pointer to the element type; any other attribute name
fails, but with a `NameError` (the fallback at nodes.py line 234
evaluates `node.attr` where no name `node` is bound) rather than the
intended unknown-attribute error.
-/
theorem array_attribute_eval :
    mkArrayAttributeNode "foo" f8 2 = .error .nameErrorNodeNotDefined
  ∧ (mkArrayAttributeNode "ndim" f8 2).map (fun nd => nd.type) = .ok int_C
  ∧ (mkArrayAttributeNode "shape" f8 2).map (fun nd => nd.type)
      = .ok (.carrayT intp 2)
  ∧ (mkArrayAttributeNode "strides" f8 2).map (fun nd => nd.type)
      = .ok (.carrayT intp 2)
  ∧ (mkArrayAttributeNode "data" f8 2).map (fun nd => nd.type)
      = .ok (.pointerT f8) :=
  ⟨rfl, rfl, rfl, rfl, rfl⟩

/--
C3 counterexample: constructing a Call node from a 2-parameter
signature and 3 supplied argument nodes does not fail: a node is
constructed whose coerced argument list silently drops the third
argument (Python's `zip` stops at the shorter list; nodes.py lines
92-97 perform no arity check).
-/
theorem function_call_arity_counterexample :
    ((mkFunctionCallNode (α := Nat) ⟨[int_C, f8], f4⟩ [10, 20, 30]).args.map
        (fun a => a.node) = [10, 20])
  ∧ (mkFunctionCallNode (α := Nat) ⟨[int_C, f8], f4⟩ [10, 20, 30]).var.type
      = f4 :=
  ⟨rfl, rfl⟩

/--
C3 amended: the Call-node constructor performs no arity check; the
argument nodes are paired with the parameter types by position up to
the shorter of the two lists, any excess arguments (or parameters) are
silently dropped, each paired argument is wrapped in a Coercion node
to its declared parameter type, and the node's result type is the
signature's return type.
-/
theorem function_call_coercion (sig : Signature) {α : Type} (args : List α) :
    (mkFunctionCallNode sig args).var.type = sig.return_type
  ∧ (mkFunctionCallNode sig args).args.length = min sig.args.length args.length
  ∧ ∀ i : Nat, (mkFunctionCallNode sig args).args[i]? =
      (sig.args[i]?).bind fun t =>
        (args[i]?).map fun a => mkCoercionNode a t := by
  refine ⟨rfl, ?_, ?_⟩
  · simp [mkFunctionCallNode]
  · intro i
    rcases h1 : sig.args[i]? with _ | t <;> rcases h2 : args[i]? with _ | a <;>
      simp [mkFunctionCallNode, List.zip, List.getElem?_zipWith', h1, h2]

/-! Injectivity of the generated temporary names.  The decimal
rendering embedded in the name is inverted digit by digit. -/

/-- Helper: a decimal digit character decodes back to its digit. -/
theorem digitChar_decode {d : Nat} (hd : d < 10) :
    Char.toNat (Nat.digitChar d) - 48 = d := by
  interval_cases d <;> rfl

/-- Helper: a digit list below 10 decodes from its character list. -/
theorem map_digitChar_decode :
    ∀ l : List Nat, (∀ d ∈ l, d < 10) →
      (l.map Nat.digitChar).map (fun ch => Char.toNat ch - 48) = l
  | [], _ => rfl
  | d :: l, h => by
    have hd : d < 10 := h d (List.mem_cons_self d l)
    have ht : ∀ x ∈ l, x < 10 := fun x hx => h x (List.mem_cons_of_mem d hx)
    simp only [List.map_cons]
    rw [digitChar_decode hd, map_digitChar_decode l ht]

/-- Helper: strings with equal character data are equal. -/
theorem string_eq_of_data {s t : String} (h : s.data = t.data) : s = t := by
  cases s; cases t; exact congrArg String.mk h

/-- Helper: character data of `decimalString` for a nonzero number. -/
theorem decimalString_data {n : Nat} (hn : n ≠ 0) :
    (decimalString n).data = (Nat.digits 10 n).reverse.map Nat.digitChar := by
  unfold decimalString
  rw [if_neg hn]
  rfl

/-- Helper: decoding the rendered digit characters recovers the
reversed digit list. -/
theorem digits_decode (n : Nat) :
    ((Nat.digits 10 n).reverse.map Nat.digitChar).map
        (fun ch => Char.toNat ch - 48)
      = (Nat.digits 10 n).reverse := by
  apply map_digitChar_decode
  intro d hd
  exact Nat.digits_lt_base (by norm_num) (List.mem_reverse.mp hd)

/-- Helper: only zero renders as the string of zero. -/
theorem decimalString_eq_zero {b : Nat}
    (h : decimalString b = decimalString 0) : b = 0 := by
  by_contra hb
  have hd := congrArg String.data h
  rw [decimalString_data hb] at hd
  have h0 : (decimalString 0).data = ['0'] := rfl
  rw [h0] at hd
  have h1 := congrArg (List.map (fun ch => Char.toNat ch - 48)) hd
  rw [digits_decode b] at h1
  have h2 : Nat.digits 10 b = [0] := by
    have h4 := congrArg List.reverse h1
    simpa using h4
  have h3 := Nat.ofDigits_digits 10 b
  rw [h2] at h3
  simp [Nat.ofDigits] at h3
  exact hb h3.symm

/-- Helper: the decimal rendering is injective. -/
theorem decimalString_injective : Function.Injective decimalString := by
  intro a b h
  rcases eq_or_ne a 0 with ha | ha <;> rcases eq_or_ne b 0 with hb | hb
  · rw [ha, hb]
  · subst ha
    exact absurd (decimalString_eq_zero h.symm) hb
  · subst hb
    exact decimalString_eq_zero h
  · have hd := congrArg String.data h
    rw [decimalString_data ha, decimalString_data hb] at hd
    have h1 := congrArg (List.map (fun ch => Char.toNat ch - 48)) hd
    rw [digits_decode a, digits_decode b] at h1
    have h2 : Nat.digits 10 a = Nat.digits 10 b := by
      have := congrArg List.reverse h1
      simpa using this
    exact Nat.digits_inj_iff.mp h2

/-- Helper: the full generated temporary name determines the counter. -/
theorem temp_name_injective :
    Function.Injective (fun n => "___numba_" ++ decimalString n) := by
  intro a b h
  apply decimalString_injective
  apply string_eq_of_data
  have hd := congrArg String.data h
  have e : ∀ s t : String, (s ++ t).data = s.data ++ t.data := fun s t => rfl
  rw [e, e] at hd
  exact List.append_cancel_left hd

/-- Helper: the counter after constructing `n` temporaries. -/
theorem mkTempNodes_snd (ty : MiniType) :
    ∀ n c : Nat, (mkTempNodes ty n c).2 = c + n
  | 0, c => by simp [mkTempNodes]
  | n + 1, c => by
    simp [mkTempNodes, mkTempNode, mkTempNodes_snd ty n (c + 1)]
    omega

/-- Helper: closed form for the constructed temporaries. -/
theorem mkTempNodes_fst (ty : MiniType) :
    ∀ n c : Nat, (mkTempNodes ty n c).1
      = (List.range n).map (fun k => (mkTempNode ty (c + k)).1)
  | 0, c => by simp [mkTempNodes]
  | n + 1, c => by
    rw [List.range_succ_eq_map]
    show (mkTempNode ty c).1 :: (mkTempNodes ty n (c + 1)).1 = _
    rw [mkTempNodes_fst ty n (c + 1)]
    simp only [List.map_cons, List.map_map, Nat.add_zero]
    congr 1
    apply List.map_congr_left
    intro k _
    simp only [Function.comp]
    rw [show c + 1 + k = c + (k + 1) from by omega]

/--
C9: constructing `n` Temporary nodes starting from any counter value
yields `n` pairwise-distinct binding names (the counter value is
embedded in the decimal suffix of each generated name), and each
construction increments the counter, so after `n` constructions the
counter has advanced by exactly `n`.
-/
theorem temp_nodes_distinct_names (ty : MiniType) (n c : Nat) :
    ((mkTempNodes ty n c).1.map (fun nd => nd.var.name)).Nodup
  ∧ (mkTempNodes ty n c).2 = c + n := by
  refine ⟨?_, mkTempNodes_snd ty n c⟩
  rw [mkTempNodes_fst, List.map_map]
  refine List.Nodup.map ?_ (List.nodup_range n)
  intro x y hxy
  simp only [Function.comp, mkTempNode, Option.some.injEq] at hxy
  have := temp_name_injective hxy
  omega

end Numba
